import Mathlib

/-!
A shallow embedding of the PR review agent's analyzer-orchestration and
feedback-synthesis pipeline.

The embedding follows the Python sources:
* `src/analyzer/flake8_analyzer.py`   (`Flake8Analyzer.analyze`)
* `src/analyzer/pylint_analyzer.py`   (`PylintAnalyzer.analyze`)
* `src/analyzer/__pycache__/radon_analyzer.py` (`RadonAnalyzer.analyze`)
* `src/feedback/feedback_generator.py` (`FeedbackGenerator`)
* `src/main.py`                        (`PRReviewAgent`)

External subprocess invocations are modelled by an oracle function mapping a
changed file to the outcome of the one tool invocation made for it (binary
missing, some other exception, or a completed process with stdout/stderr).
Python dictionaries with optional keys are modelled by structures with
`Option` fields; `dict.get(k, d)` becomes `Option.getD`.
-/

/-- Python's substring membership `needle in haystack` on lists of
characters: `needle` occurs contiguously somewhere in the haystack. -/
def pyInChars (needle : List Char) : List Char → Bool
  | [] => needle.isEmpty
  | c :: rest => needle.isPrefixOf (c :: rest) || pyInChars needle rest

/-- Python's `needle in haystack` for strings. -/
def pyIn (needle haystack : String) : Bool :=
  pyInChars needle.toList haystack.toList

/-- Python's `str.lower()`.  Extensionally this is Lean's
`String.toLower` (a character-wise map of `Char.toLower`), but written by
structural recursion over the character list so that concrete instances
reduce; `Char.toLower` lower-cases the basic latin range, which covers
every severity string and keyword the tools emit. -/
def pyLower (s : String) : String :=
  ⟨s.data.map Char.toLower⟩

/-- Python's `line.split(sep, 3)` for `sep = ":"`: at most four parts, the
fourth keeping any further separators. -/
def pySplitColonMax3 (s : String) : List String :=
  match s.splitOn ":" with
  | a :: b :: c :: rest =>
    if rest.isEmpty then [a, b, c] else [a, b, c, String.intercalate ":" rest]
  | l => l

/-- Python's `int(s)` on the numeric fields of tool output: surrounding
whitespace is stripped, then an optional sign and digits are parsed;
`none` models the `ValueError` raised on anything else. -/
def pyToInt? (s : String) : Option Int :=
  (s.trim).toInt?

/-- `ChangedFile` record produced by the fetch collaborator (spec §3).
`status` is one of `added`, `modified`, `removed`, `renamed` in practice,
but the adapters only test membership in `['added', 'modified']`, so it is
kept as a plain string. -/
structure ChangedFile where
  filename : String
  status : String
  additions : Nat := 0
  deletions : Nat := 0
  patch : String := ""
  raw_url : String := ""

/-- The `details` mapping attached by the radon adapter to a flagged
code unit (radon_analyzer.py lines 71-77). -/
structure RadonDetails where
  complexity : Int
  name : String
  loc : Int
  lloc : Int
  cc : Int
deriving DecidableEq

/-- An issue dictionary as built by the adapters.  Keys that a given
adapter omits are `none`, mirroring the Python dict literals: a genuine
flake8 finding sets `file/line/column/code/message/severity`, a synthetic
error issue sets only `file/message/severity`, a radon complexity issue
also sets `details`. -/
structure Issue where
  file : Option String := none
  line : Option Int := none
  column : Option Int := none
  code : Option String := none
  message : Option String := none
  severity : Option String := none
  details : Option RadonDetails := none
deriving DecidableEq

/-- The dictionary returned by an adapter's `analyze`: `total_issues` and
`issues` are always present; `errors`/`warnings` are flake8 and pylint
counters, `infos` is pylint only, `complexity_issues` is radon only. -/
structure AnalysisResult where
  total_issues : Nat
  errors : Option Nat := none
  warnings : Option Nat := none
  infos : Option Nat := none
  complexity_issues : Option Nat := none
  issues : List Issue
deriving DecidableEq

/-- One value of the `analysis_results` map assembled by
`PRReviewAgent.review_pr` (main.py lines 76-81): either an adapter's
result dictionary, or the error placeholder `{"error": str(e)}` recorded
when `analyze` raised — the placeholder has neither an `issues` nor a
`total_issues` key. -/
inductive ResultEntry where
  | ok (r : AnalysisResult)
  | err (msg : String)
deriving DecidableEq

/-- The outcome of the single external-tool invocation an adapter makes
for one eligible file.  `σ` is the shape of the (already decoded) standard
output: a raw string for flake8's line-oriented format, a `PyStdout` for
the JSON tools.  `notFound` models `FileNotFoundError`, `excOther` any
other exception raised by the invocation. -/
inductive ToolOutcome (σ : Type) where
  | notFound
  | excOther (msg : String)
  | ran (stdout : σ) (stderr : String)

/-- Standard output of a JSON-producing tool as seen by the adapter:
`empty` is a falsy (empty) stdout, `parsed` a successful `json.loads`
yielding a list of well-formed item dictionaries, `malformed` a
`json.JSONDecodeError` with the raw output text. -/
inductive PyStdout (α : Type) where
  | empty
  | parsed (items : List α)
  | malformed (raw : String)

/-- Eligibility filter shared by all three adapters:
`file['status'] in ['added', 'modified']`. -/
def eligibleFiles (files : List ChangedFile) : List ChangedFile :=
  files.filter fun f => f.status = "added" ∨ f.status = "modified"

namespace FeedbackGenerator

/-- `self.severity_mapping.get(key, 'medium')` with the mapping from
`FeedbackGenerator.__init__` (feedback_generator.py lines 13-17). -/
def severity_mapping_get (key : String) : String :=
  if key = "error" then "critical"
  else if key = "warning" then "high"
  else if key = "info" then "medium"
  else "medium"

/-- `FeedbackGenerator._map_severity` (feedback_generator.py lines 68-70):
`self.severity_mapping.get(severity.lower(), 'medium')`. -/
def map_severity (severity : String) : String :=
  severity_mapping_get (pyLower severity)

/-- A reduced issue record appended to a severity bucket
(feedback_generator.py lines 50-56). -/
structure BucketItem where
  analyzer : String
  file : String
  line : Int
  message : String
  code : String
deriving DecidableEq

/-- The `feedback['issues']` map with its four fixed buckets
(feedback_generator.py lines 38-43). -/
structure Buckets where
  critical : List BucketItem := []
  high : List BucketItem := []
  medium : List BucketItem := []
  low : List BucketItem := []
deriving DecidableEq

/-- The reduced record built for one issue
(feedback_generator.py lines 50-56), with the `dict.get` defaults. -/
def issueToBucketItem (analyzer : String) (i : Issue) : BucketItem :=
  { analyzer := analyzer
    file := i.file.getD "unknown"
    line := i.line.getD 0
    message := i.message.getD "Unknown issue"
    code := i.code.getD "unknown" }

/-- The bucket key computed for one issue:
`self._map_severity(issue.get('severity', 'info'))`. -/
def issueBucket (i : Issue) : String :=
  map_severity (i.severity.getD "info")

/-- `feedback['issues'][severity].append(item)`.  `severity` is always one
of the four bucket keys here because `map_severity` only returns
`critical`, `high` or `medium`; the final branch is unreachable. -/
def Buckets.add (b : Buckets) (severity : String) (item : BucketItem) : Buckets :=
  if severity = "critical" then { b with critical := b.critical ++ [item] }
  else if severity = "high" then { b with high := b.high ++ [item] }
  else if severity = "medium" then { b with medium := b.medium ++ [item] }
  else if severity = "low" then { b with low := b.low ++ [item] }
  else b

/-- The inner loop of feedback_generator.py lines 48-56: append every
issue of one adapter's result to its bucket. -/
def addIssues (analyzer : String) (b : Buckets) : List Issue → Buckets
  | [] => b
  | i :: rest =>
    addIssues analyzer (b.add (issueBucket i) (issueToBucketItem analyzer i)) rest

/-- The outer loop of feedback_generator.py lines 46-56: an entry
participates only when it has a (truthy, i.e. non-empty) `issues` key. -/
def categorizeIssues (b : Buckets) : List (String × ResultEntry) → Buckets
  | [] => b
  | (name, .ok r) :: rest =>
    categorizeIssues (if r.issues.isEmpty then b else addIssues name b r.issues) rest
  | (_, .err _) :: rest => categorizeIssues b rest

/-- Keyword scan shared by the `_has_*_issues` helpers: some issue of a
result that has an `issues` key has a message whose lowercasing contains
one of the keywords (`issue.get('message', '').lower()`). -/
def entryHasKeyword (keywords : List String) : ResultEntry → Bool
  | .ok r =>
    r.issues.any fun i => keywords.any fun k => pyIn k (pyLower (i.message.getD ""))
  | .err _ => false

/-- `FeedbackGenerator._has_security_issues` (lines 119-128). -/
def has_security_issues (results : List (String × ResultEntry)) : Bool :=
  results.any fun p => entryHasKeyword ["security", "vulnerability", "injection", "sql"] p.2

/-- `FeedbackGenerator._has_performance_issues` (lines 130-139). -/
def has_performance_issues (results : List (String × ResultEntry)) : Bool :=
  results.any fun p => entryHasKeyword ["performance", "slow", "inefficient", "memory"] p.2

/-- `FeedbackGenerator._has_documentation_issues` (lines 141-150). -/
def has_documentation_issues (results : List (String × ResultEntry)) : Bool :=
  results.any fun p => entryHasKeyword ["docstring", "documentation", "missing"] p.2

/-- The recommendation list of `_generate_recommendations`
(feedback_generator.py lines 78-112) before duplicate removal, in build
order.  The unused `pr_data` parameter of the Python method is omitted. -/
def buildRecommendations (results : List (String × ResultEntry)) (issues : Buckets) :
    List String :=
  let recs := ["Ensure all code follows the project\x27s style guidelines",
               "Review all identified issues before merging"]
  let total_critical := issues.critical.length
  let total_high := issues.high.length
  let total_medium := issues.medium.length
  let recs := recs ++
    (if total_critical > 0 then [s!"Fix {total_critical} critical issues before merging"] else [])
  let recs := recs ++
    (if total_high > 0 then [s!"Address {total_high} high severity issues"] else [])
  let recs := recs ++
    (if total_medium > 0 then
      [s!"Consider addressing {total_medium} medium severity issues"] else [])
  let recs := recs ++
    (if has_security_issues results then ["Review security implications of code changes"] else [])
  let recs := recs ++
    (if has_performance_issues results then ["Consider performance optimizations"] else [])
  let recs := recs ++
    (if issues.high.length + issues.medium.length > 0 then
      ["Refactor complex functions to improve readability"] else [])
  let recs := recs ++
    (if has_documentation_issues results then
      ["Update documentation to reflect code changes"] else [])
  recs

/-- `list(dict.fromkeys(recommendations))` (feedback_generator.py line
115): remove duplicates keeping the first occurrence of each string. -/
def dedupFirst : List String → List String
  | [] => []
  | x :: xs => x :: dedupFirst (xs.filter fun y => y != x)
termination_by l => l.length
decreasing_by
  simp only [List.length_cons]
  exact Nat.lt_succ_of_le (List.length_filter_le _ xs)

/-- `FeedbackGenerator._generate_recommendations` (lines 72-117). -/
def generate_recommendations (results : List (String × ResultEntry)) (issues : Buckets) :
    List String :=
  dedupFirst (buildRecommendations results issues)

/-- The `feedback['summary']` dictionary (feedback_generator.py
lines 154-163), with `by_severity` flattened into four fields. -/
structure Summary where
  total_issues : Nat
  critical : Nat
  high : Nat
  medium : Nat
  low : Nat
  analyzers_used : List String
deriving DecidableEq

/-- The accumulation loop of `_generate_summary` (lines 165-170): an entry
contributes only when it has a `total_issues` key, in which case the
`errors`/`warnings`/`infos` counters are read with default 0. -/
def summaryLoop (s : Summary) : List (String × ResultEntry) → Summary
  | [] => s
  | (_, .ok r) :: rest =>
    summaryLoop
      { s with
        total_issues := s.total_issues + r.total_issues
        critical := s.critical + r.errors.getD 0
        high := s.high + r.warnings.getD 0
        medium := s.medium + r.infos.getD 0 } rest
  | (_, .err _) :: rest => summaryLoop s rest

/-- `FeedbackGenerator._generate_summary` (lines 152-172). -/
def generate_summary (results : List (String × ResultEntry)) : Summary :=
  summaryLoop
    { total_issues := 0, critical := 0, high := 0, medium := 0, low := 0
      analyzers_used := results.map Prod.fst } results

/-- The feedback dictionary returned by `generate_feedback`. -/
structure Feedback where
  issues : Buckets
  recommendations : List String
  summary : Summary
deriving DecidableEq

/-- `FeedbackGenerator.generate_feedback` (lines 19-66).  The `pr_data`
argument is never consulted by the Python code and is omitted. -/
def generate_feedback (results : List (String × ResultEntry)) : Feedback :=
  let buckets := categorizeIssues {} results
  { issues := buckets
    recommendations := generate_recommendations results buckets
    summary := generate_summary results }

end FeedbackGenerator

namespace PRReviewAgent

/-- `severity_weights.get(severity, 1)` with the weight table of
main.py lines 112-117. -/
def severity_weights_get (severity : String) : Nat :=
  if severity = "critical" then 10
  else if severity = "high" then 7
  else if severity = "medium" then 4
  else if severity = "low" then 1
  else 1

/-- Python's `round(score, 2)`: the score is always an integer here (all
weights and counts are integers), and `round` on an integer with a digit
count returns it unchanged. -/
def pyRound2 (n : Int) : Int := n

/-- `PRReviewAgent._calculate_quality_score` (main.py lines 100-128): the
weighted sum over the four buckets of `feedback['issues']`, clamped to
`[0, 100]` and rounded. -/
def calculate_quality_score (feedback : FeedbackGenerator.Feedback) : Int :=
  let total_weighted_score : Nat :=
    feedback.issues.critical.length * severity_weights_get "critical"
    + feedback.issues.high.length * severity_weights_get "high"
    + feedback.issues.medium.length * severity_weights_get "medium"
    + feedback.issues.low.length * severity_weights_get "low"
  pyRound2 (max 0 (min 100 (100 - (total_weighted_score : Int))))

/-- The analyzer loop of `PRReviewAgent.review_pr` (main.py lines 76-81);
each adapter's outcome — its result dictionary, or the message of the
exception it raised — is recorded in `analysis_results` either as the
result or as the `{"error": str(e)}` placeholder.  Every adapter yields
exactly one entry. -/
def record_analysis_results (adapters : List (String × Except String AnalysisResult)) :
    List (String × ResultEntry) :=
  adapters.map fun p =>
    (p.1, match p.2 with
          | .ok a => ResultEntry.ok a
          | .error e => ResultEntry.err e)

end PRReviewAgent

/-- A synthetic error issue: the three-key dict
`{'file': ..., 'message': ..., 'severity': 'error'}` used by all adapters
for tool failures. -/
def synError (filename message : String) : Issue :=
  { file := some filename, message := some message, severity := some "error" }

namespace Flake8Analyzer

/-- `Flake8Analyzer._get_severity` (flake8_analyzer.py lines 105-112). -/
def get_severity (code : String) : String :=
  if code.startsWith "E" || code.startsWith "F" then "error"
  else if code.startsWith "W" || code.startsWith "C" then "warning"
  else "info"

/-- `Flake8Analyzer._is_error` (flake8_analyzer.py lines 114-116). -/
def is_error (code : String) : Bool :=
  code.startsWith "E" || code.startsWith "F"

/-- Accumulator of the stdout parsing loop for one file: the issues
parsed so far, the error/warning tallies, and whether a `ValueError`
escaped from `int(...)` (aborting the rest of the file's processing). -/
structure ParseAcc where
  issues : List Issue := []
  errors : Nat := 0
  warnings : Nat := 0
  exc : Bool := false

/-- The stdout parsing loop (flake8_analyzer.py lines 52-69): each
non-blank line is split on `:` with maxsplit 3; lines with fewer than 4
parts are skipped; `int(row)`/`int(col)` failure raises out of the loop,
keeping the issues and tallies accumulated so far. -/
def parseLines (filename : String) : List String → ParseAcc
  | [] => {}
  | line :: rest =>
    if (line.trim).isEmpty then parseLines filename rest
    else
      match pySplitColonMax3 line with
      | row :: col :: code :: text :: _ =>
        match pyToInt? row, pyToInt? col with
        | some r, some c =>
          let issue : Issue :=
            { file := some filename, line := some r, column := some c
              code := some code, message := some text
              severity := some (get_severity code) }
          let acc := parseLines filename rest
          { issues := issue :: acc.issues
            errors := if is_error code then acc.errors + 1 else acc.errors
            warnings := if is_error code then acc.warnings else acc.warnings + 1
            exc := acc.exc }
        | _, _ => { exc := true }
      | _ => parseLines filename rest

/-- The body of the per-file `try` block (flake8_analyzer.py lines
42-96) for one eligible file, given the invocation's outcome: the issues
appended for that file and its error/warning tally contributions.  The
message text of the `except Exception` branch abstracts CPython's
`ValueError` text. -/
def analyzeFile (oracle : ChangedFile → ToolOutcome String) (f : ChangedFile) :
    List Issue × Nat × Nat :=
  match oracle f with
  | .notFound => ([synError f.filename "Flake8 not installed or not in PATH"], 0, 0)
  | .excOther m => ([synError f.filename ("Error running Flake8: " ++ m)], 0, 0)
  | .ran stdout stderr =>
    let acc : ParseAcc :=
      if stdout.isEmpty then {} else parseLines f.filename ((stdout.trim).splitOn "\n")
    if acc.exc then
      (acc.issues ++ [synError f.filename "Error running Flake8: invalid literal for int"],
       acc.errors, acc.warnings)
    else
      (acc.issues ++
        (if stderr.isEmpty then [] else [synError f.filename ("Flake8 error: " ++ stderr)]),
       acc.errors, acc.warnings)

/-- The file loop of `Flake8Analyzer.analyze` (lines 33-96): only files
with status `added` or `modified` are processed. -/
def analyzeLoop (oracle : ChangedFile → ToolOutcome String) :
    List ChangedFile → List Issue × Nat × Nat
  | [] => ([], 0, 0)
  | f :: rest =>
    if f.status = "added" ∨ f.status = "modified" then
      let pf := analyzeFile oracle f
      let pr := analyzeLoop oracle rest
      (pf.1 ++ pr.1, pf.2.1 + pr.2.1, pf.2.2 + pr.2.2)
    else analyzeLoop oracle rest

/-- `Flake8Analyzer.analyze` (flake8_analyzer.py lines 18-103). -/
def analyze (oracle : ChangedFile → ToolOutcome String) (changed_files : List ChangedFile) :
    AnalysisResult :=
  let acc := analyzeLoop oracle changed_files
  { total_issues := acc.1.length
    errors := some acc.2.1
    warnings := some acc.2.2
    issues := acc.1 }

end Flake8Analyzer

namespace PylintAnalyzer

/-- One element of pylint's decoded JSON output with the keys read at
pylint_analyzer.py lines 57-61. -/
structure PylintItem where
  message : String
  line : Int
  column : Int
  category : String
  symbol : String

/-- `PylintAnalyzer._get_severity` (pylint_analyzer.py lines 121-134). -/
def get_severity (category : String) : String :=
  if category = "error" then "error"
  else if category = "warning" then "warning"
  else if category = "convention" then "info"
  else if category = "refactor" then "info"
  else if category = "info" then "info"
  else "info"

/-- Accumulator for one pylint invocation: issues plus the three native
category tallies (note `convention` and `refactor` items increment no
tally even though they are mapped to severity `info`). -/
structure ItemsAcc where
  issues : List Issue := []
  errors : Nat := 0
  warnings : Nat := 0
  infos : Nat := 0

/-- The JSON item loop (pylint_analyzer.py lines 56-77). -/
def processItems (filename : String) : List PylintItem → ItemsAcc
  | [] => {}
  | item :: rest =>
    let issue : Issue :=
      { file := some filename, line := some item.line, column := some item.column
        code := some item.symbol, message := some item.message
        severity := some (get_severity item.category) }
    let acc := processItems filename rest
    { issues := issue :: acc.issues
      errors := if item.category = "error" then acc.errors + 1 else acc.errors
      warnings := if item.category = "warning" then acc.warnings + 1 else acc.warnings
      infos := if item.category = "info" then acc.infos + 1 else acc.infos }

/-- The per-file `try` block of `PylintAnalyzer.analyze` (lines 43-111).
A `json.JSONDecodeError` is caught by the inner handler, so the stderr
check still runs after it; the outer exception handlers skip it. -/
def analyzeFile (oracle : ChangedFile → ToolOutcome (PyStdout PylintItem))
    (f : ChangedFile) : ItemsAcc :=
  match oracle f with
  | .notFound => { issues := [synError f.filename "Pylint not installed or not in PATH"] }
  | .excOther m => { issues := [synError f.filename ("Error running Pylint: " ++ m)] }
  | .ran stdout stderr =>
    let acc : ItemsAcc :=
      match stdout with
      | .empty => {}
      | .parsed items => processItems f.filename items
      | .malformed raw =>
        { issues := [synError f.filename ("Pylint output parsing error: " ++ raw)] }
    { acc with
      issues := acc.issues ++
        (if stderr.isEmpty then [] else [synError f.filename ("Pylint error: " ++ stderr)]) }

/-- The file loop of `PylintAnalyzer.analyze` (lines 34-111). -/
def analyzeLoop (oracle : ChangedFile → ToolOutcome (PyStdout PylintItem)) :
    List ChangedFile → ItemsAcc
  | [] => {}
  | f :: rest =>
    if f.status = "added" ∨ f.status = "modified" then
      let pf := analyzeFile oracle f
      let pr := analyzeLoop oracle rest
      { issues := pf.issues ++ pr.issues
        errors := pf.errors + pr.errors
        warnings := pf.warnings + pr.warnings
        infos := pf.infos + pr.infos }
    else analyzeLoop oracle rest

/-- `PylintAnalyzer.analyze` (pylint_analyzer.py lines 18-119). -/
def analyze (oracle : ChangedFile → ToolOutcome (PyStdout PylintItem))
    (changed_files : List ChangedFile) : AnalysisResult :=
  let acc := analyzeLoop oracle changed_files
  { total_issues := acc.issues.length
    errors := some acc.errors
    warnings := some acc.warnings
    infos := some acc.infos
    issues := acc.issues }

end PylintAnalyzer

namespace RadonAnalyzer

/-- One element of radon's decoded JSON output.  The code guards on
`'complexity' in item` before reading any other key, so `complexity` is
optional; the remaining keys are those read at radon_analyzer.py lines
58-68 (`start_line` via `item.get('start_line', 0)`). -/
structure RadonItem where
  complexity : Option Int := none
  name : String := ""
  loc : Int := 0
  lloc : Int := 0
  cc : Int := 0
  start_line : Option Int := none

/-- Whether an item is flagged: it has a `complexity` key and the score
strictly exceeds the fixed threshold 5 (radon_analyzer.py line 65). -/
def flaggedItem (item : RadonItem) : Bool :=
  match item.complexity with
  | some c => c > 5
  | none => false

/-- The `warning` issue built for one flagged unit (radon_analyzer.py
lines 66-78), carrying the unit name and score in `details`. -/
def complexityIssue (filename : String) (item : RadonItem) : Issue :=
  let c := item.complexity.getD 0
  let nm := item.name
  let k := item.cc
  { file := some filename
    line := some (item.start_line.getD 0)
    message := some s!"High complexity detected in {nm}: {c} (CC: {k})"
    severity := some "warning"
    details := some { complexity := c, name := nm, loc := item.loc, lloc := item.lloc, cc := k } }

/-- The JSON item loop (radon_analyzer.py lines 56-79): items without a
`complexity` key are skipped; flagged items yield one issue and bump the
`complexity_issues` tally. -/
def processItems (filename : String) : List RadonItem → List Issue × Nat
  | [] => ([], 0)
  | item :: rest =>
    let acc := processItems filename rest
    match item.complexity with
    | some complexity =>
      if complexity > 5 then (complexityIssue filename item :: acc.1, acc.2 + 1) else acc
    | none => acc

/-- The per-file `try` block of `RadonAnalyzer.analyze` (lines 41-107);
as for pylint, a JSON decode error still lets the stderr check run. -/
def analyzeFile (oracle : ChangedFile → ToolOutcome (PyStdout RadonItem))
    (f : ChangedFile) : List Issue × Nat :=
  match oracle f with
  | .notFound => ([synError f.filename "Radon not installed or not in PATH"], 0)
  | .excOther m => ([synError f.filename ("Error running Radon: " ++ m)], 0)
  | .ran stdout stderr =>
    let acc : List Issue × Nat :=
      match stdout with
      | .empty => ([], 0)
      | .parsed items => processItems f.filename items
      | .malformed raw => ([synError f.filename ("Radon output parsing error: " ++ raw)], 0)
    (acc.1 ++ (if stderr.isEmpty then [] else [synError f.filename ("Radon error: " ++ stderr)]),
     acc.2)

/-- The file loop of `RadonAnalyzer.analyze` (lines 32-107). -/
def analyzeLoop (oracle : ChangedFile → ToolOutcome (PyStdout RadonItem)) :
    List ChangedFile → List Issue × Nat
  | [] => ([], 0)
  | f :: rest =>
    if f.status = "added" ∨ f.status = "modified" then
      let pf := analyzeFile oracle f
      let pr := analyzeLoop oracle rest
      (pf.1 ++ pr.1, pf.2 + pr.2)
    else analyzeLoop oracle rest

/-- `RadonAnalyzer.analyze` (radon_analyzer.py lines 18-119). -/
def analyze (oracle : ChangedFile → ToolOutcome (PyStdout RadonItem))
    (changed_files : List ChangedFile) : AnalysisResult :=
  let acc := analyzeLoop oracle changed_files
  { total_issues := acc.1.length
    complexity_issues := some acc.2
    issues := acc.1 }

end RadonAnalyzer

/-- The `total_issues` value an entry reports: present for adapter
results, absent (contributing 0) for error placeholders. -/
def ResultEntry.reportedTotal : ResultEntry → Nat
  | .ok r => r.total_issues
  | .err _ => 0

/-- The `errors` counter an entry reports, with the `dict.get` default 0. -/
def ResultEntry.reportedErrors : ResultEntry → Nat
  | .ok r => r.errors.getD 0
  | .err _ => 0

/-- The `warnings` counter an entry reports, with default 0. -/
def ResultEntry.reportedWarnings : ResultEntry → Nat
  | .ok r => r.warnings.getD 0
  | .err _ => 0

/-- The `infos` counter an entry reports, with default 0. -/
def ResultEntry.reportedInfos : ResultEntry → Nat
  | .ok r => r.infos.getD 0
  | .err _ => 0

/-- The number of issues an entry contributes to the buckets: the length
of its `issues` list for adapter results, 0 for error placeholders. -/
def ResultEntry.issueCount : ResultEntry → Nat
  | .ok r => r.issues.length
  | .err _ => 0

/-- Total number of bucketed records across the four severity buckets. -/
def FeedbackGenerator.Buckets.size (b : FeedbackGenerator.Buckets) : Nat :=
  b.critical.length + b.high.length + b.medium.length + b.low.length

/-- Number of code units one radon invocation outcome flags: the items of
a parsed stdout whose complexity strictly exceeds the threshold; every
other outcome flags none. -/
def RadonAnalyzer.outcomeFlaggedCount :
    ToolOutcome (PyStdout RadonAnalyzer.RadonItem) → Nat
  | .ran (.parsed items) _ => (items.filter RadonAnalyzer.flaggedItem).length
  | _ => 0

/-- The `analysis_results` map of a review run in which every tool
invocation completes with no findings, no stderr text and (for the JSON
tools) empty stdout: each adapter contributes its result on the given
changed files. -/
def cleanRunResults (files : List ChangedFile) : List (String × ResultEntry) :=
  [("flake8", ResultEntry.ok (Flake8Analyzer.analyze (fun _ => ToolOutcome.ran "" "") files)),
   ("pylint", ResultEntry.ok (PylintAnalyzer.analyze (fun _ => ToolOutcome.ran PyStdout.empty "") files)),
   ("radon", ResultEntry.ok (RadonAnalyzer.analyze (fun _ => ToolOutcome.ran PyStdout.empty "") files))]

/-! ## Theorems -/

/-- C1: For every FeedbackReport, the quality score equals
`clamp(100 - (10*len(critical) + 7*len(high) + 4*len(medium) + 1*len(low)), 0, 100)`
rounded to 2 decimal places; an all-empty report scores exactly 100, and
a report with critical=0, high=2, medium=1, low=0 scores exactly 82. -/
theorem quality_score_clamped_weighted_deduction :
    (∀ fb : FeedbackGenerator.Feedback,
      PRReviewAgent.calculate_quality_score fb
        = PRReviewAgent.pyRound2 (max 0 (min 100
            (100 - (10 * (fb.issues.critical.length : Int)
                    + 7 * (fb.issues.high.length : Int)
                    + 4 * (fb.issues.medium.length : Int)
                    + 1 * (fb.issues.low.length : Int))))))
    ∧ (∀ recs s, PRReviewAgent.calculate_quality_score ⟨{}, recs, s⟩ = 100)
    ∧ (∀ recs s i₁ i₂ j₁, PRReviewAgent.calculate_quality_score
        ⟨{ high := [i₁, i₂], medium := [j₁] }, recs, s⟩ = 82) := by
  refine ⟨fun fb => ?_, fun recs s => ?_, fun recs s i₁ i₂ j₁ => ?_⟩
  · simp only [PRReviewAgent.calculate_quality_score, PRReviewAgent.severity_weights_get,
      PRReviewAgent.pyRound2]
    push_cast
    omega
  · simp [PRReviewAgent.calculate_quality_score, PRReviewAgent.severity_weights_get,
      PRReviewAgent.pyRound2]
  · simp [PRReviewAgent.calculate_quality_score, PRReviewAgent.severity_weights_get,
      PRReviewAgent.pyRound2]

/-- C8: The quality score is monotonically non-increasing in each bucket:
extending any one bucket while holding the others fixed never increases
the score. -/
theorem quality_score_monotone_in_buckets :
    ∀ (fb : FeedbackGenerator.Feedback) (extra : List FeedbackGenerator.BucketItem),
      PRReviewAgent.calculate_quality_score
          { fb with issues := { fb.issues with critical := fb.issues.critical ++ extra } }
        ≤ PRReviewAgent.calculate_quality_score fb
    ∧ PRReviewAgent.calculate_quality_score
          { fb with issues := { fb.issues with high := fb.issues.high ++ extra } }
        ≤ PRReviewAgent.calculate_quality_score fb
    ∧ PRReviewAgent.calculate_quality_score
          { fb with issues := { fb.issues with medium := fb.issues.medium ++ extra } }
        ≤ PRReviewAgent.calculate_quality_score fb
    ∧ PRReviewAgent.calculate_quality_score
          { fb with issues := { fb.issues with low := fb.issues.low ++ extra } }
        ≤ PRReviewAgent.calculate_quality_score fb := by
  intro fb extra
  refine ⟨?_, ?_, ?_, ?_⟩ <;>
    · simp only [PRReviewAgent.calculate_quality_score, PRReviewAgent.severity_weights_get,
        PRReviewAgent.pyRound2, List.length_append]
      push_cast
      omega

theorem eligibleFiles_cons_pos {f : ChangedFile}
    (h : f.status = "added" ∨ f.status = "modified") (rest : List ChangedFile) :
    eligibleFiles (f :: rest) = f :: eligibleFiles rest := by
  simp [eligibleFiles, List.filter_cons, h]

theorem eligibleFiles_cons_neg {f : ChangedFile}
    (h : ¬(f.status = "added" ∨ f.status = "modified")) (rest : List ChangedFile) :
    eligibleFiles (f :: rest) = eligibleFiles rest := by
  have h1 : f.status ≠ "added" := fun hc => h (Or.inl hc)
  have h2 : f.status ≠ "modified" := fun hc => h (Or.inr hc)
  simp [eligibleFiles, List.filter_cons, h1, h2]

theorem flake8_analyzeLoop_filter (o : ChangedFile → ToolOutcome String)
    (files : List ChangedFile) :
    Flake8Analyzer.analyzeLoop o files = Flake8Analyzer.analyzeLoop o (eligibleFiles files) := by
  induction files with
  | nil => rfl
  | cons f rest ih =>
    by_cases h : f.status = "added" ∨ f.status = "modified"
    · rw [eligibleFiles_cons_pos h]
      simp only [Flake8Analyzer.analyzeLoop, if_pos h, ih]
    · rw [eligibleFiles_cons_neg h]
      simp only [Flake8Analyzer.analyzeLoop, if_neg h, ih]

theorem pylint_analyzeLoop_filter
    (o : ChangedFile → ToolOutcome (PyStdout PylintAnalyzer.PylintItem))
    (files : List ChangedFile) :
    PylintAnalyzer.analyzeLoop o files = PylintAnalyzer.analyzeLoop o (eligibleFiles files) := by
  induction files with
  | nil => rfl
  | cons f rest ih =>
    by_cases h : f.status = "added" ∨ f.status = "modified"
    · rw [eligibleFiles_cons_pos h]
      simp only [PylintAnalyzer.analyzeLoop, if_pos h, ih]
    · rw [eligibleFiles_cons_neg h]
      simp only [PylintAnalyzer.analyzeLoop, if_neg h, ih]

theorem radon_analyzeLoop_filter
    (o : ChangedFile → ToolOutcome (PyStdout RadonAnalyzer.RadonItem))
    (files : List ChangedFile) :
    RadonAnalyzer.analyzeLoop o files = RadonAnalyzer.analyzeLoop o (eligibleFiles files) := by
  induction files with
  | nil => rfl
  | cons f rest ih =>
    by_cases h : f.status = "added" ∨ f.status = "modified"
    · rw [eligibleFiles_cons_pos h]
      simp only [RadonAnalyzer.analyzeLoop, if_pos h, ih]
    · rw [eligibleFiles_cons_neg h]
      simp only [RadonAnalyzer.analyzeLoop, if_neg h, ih]

/-- C3: For every ChangedFile sequence and every tool behaviour, each of
the three adapters' `analyze` results is identical to the result on the
`added`/`modified` sublist alone: files with status `removed` or
`renamed` are never analyzed and contribute nothing to the returned
issue list — no genuine findings, no synthetic issues, and no counter
increments. -/
theorem removed_renamed_files_not_analyzed :
    ∀ (o₁ : ChangedFile → ToolOutcome String)
      (o₂ : ChangedFile → ToolOutcome (PyStdout PylintAnalyzer.PylintItem))
      (o₃ : ChangedFile → ToolOutcome (PyStdout RadonAnalyzer.RadonItem))
      (files : List ChangedFile),
      Flake8Analyzer.analyze o₁ files = Flake8Analyzer.analyze o₁ (eligibleFiles files)
    ∧ PylintAnalyzer.analyze o₂ files = PylintAnalyzer.analyze o₂ (eligibleFiles files)
    ∧ RadonAnalyzer.analyze o₃ files = RadonAnalyzer.analyze o₃ (eligibleFiles files) := by
  intro o₁ o₂ o₃ files
  refine ⟨?_, ?_, ?_⟩
  · simp only [Flake8Analyzer.analyze, flake8_analyzeLoop_filter o₁ files]
  · simp only [PylintAnalyzer.analyze, pylint_analyzeLoop_filter o₂ files]
  · simp only [RadonAnalyzer.analyze, radon_analyzeLoop_filter o₃ files]

theorem flake8_analyzeLoop_notFound (files : List ChangedFile) :
    Flake8Analyzer.analyzeLoop (fun _ => ToolOutcome.notFound) files
      = ((eligibleFiles files).map
          (fun f => synError f.filename "Flake8 not installed or not in PATH"), 0, 0) := by
  induction files with
  | nil => rfl
  | cons f rest ih =>
    by_cases h : f.status = "added" ∨ f.status = "modified"
    · rw [eligibleFiles_cons_pos h]
      simp [Flake8Analyzer.analyzeLoop, Flake8Analyzer.analyzeFile, if_pos h, ih]
    · rw [eligibleFiles_cons_neg h]
      simp only [Flake8Analyzer.analyzeLoop, if_neg h, ih]

theorem pylint_analyzeLoop_notFound (files : List ChangedFile) :
    PylintAnalyzer.analyzeLoop (fun _ => ToolOutcome.notFound) files
      = { issues := (eligibleFiles files).map
            (fun f => synError f.filename "Pylint not installed or not in PATH") } := by
  induction files with
  | nil => rfl
  | cons f rest ih =>
    by_cases h : f.status = "added" ∨ f.status = "modified"
    · rw [eligibleFiles_cons_pos h]
      simp [PylintAnalyzer.analyzeLoop, PylintAnalyzer.analyzeFile, if_pos h, ih]
    · rw [eligibleFiles_cons_neg h]
      simp only [PylintAnalyzer.analyzeLoop, if_neg h, ih]

theorem radon_analyzeLoop_notFound (files : List ChangedFile) :
    RadonAnalyzer.analyzeLoop (fun _ => ToolOutcome.notFound) files
      = ((eligibleFiles files).map
          (fun f => synError f.filename "Radon not installed or not in PATH"), 0) := by
  induction files with
  | nil => rfl
  | cons f rest ih =>
    by_cases h : f.status = "added" ∨ f.status = "modified"
    · rw [eligibleFiles_cons_pos h]
      simp [RadonAnalyzer.analyzeLoop, RadonAnalyzer.analyzeFile, if_pos h, ih]
    · rw [eligibleFiles_cons_neg h]
      simp only [RadonAnalyzer.analyzeLoop, if_neg h, ih]

/-- C4: When the external tool binary cannot be located (every invocation
raises `FileNotFoundError`), each adapter's `analyze` returns normally
and its issue list is exactly one synthetic severity-`error` issue naming
the missing tool per eligible (`added`/`modified`) file, in file order,
with `total_issues` equal to the number of eligible files; the remaining
files are still processed. -/
theorem missing_tool_synthetic_issue_per_file :
    ∀ files : List ChangedFile,
      ((Flake8Analyzer.analyze (fun _ => ToolOutcome.notFound) files).issues
        = (eligibleFiles files).map
            (fun f => synError f.filename "Flake8 not installed or not in PATH")
      ∧ (Flake8Analyzer.analyze (fun _ => ToolOutcome.notFound) files).total_issues
        = (eligibleFiles files).length)
    ∧ ((PylintAnalyzer.analyze (fun _ => ToolOutcome.notFound) files).issues
        = (eligibleFiles files).map
            (fun f => synError f.filename "Pylint not installed or not in PATH")
      ∧ (PylintAnalyzer.analyze (fun _ => ToolOutcome.notFound) files).total_issues
        = (eligibleFiles files).length)
    ∧ ((RadonAnalyzer.analyze (fun _ => ToolOutcome.notFound) files).issues
        = (eligibleFiles files).map
            (fun f => synError f.filename "Radon not installed or not in PATH")
      ∧ (RadonAnalyzer.analyze (fun _ => ToolOutcome.notFound) files).total_issues
        = (eligibleFiles files).length) := by
  intro files
  refine ⟨⟨?_, ?_⟩, ⟨?_, ?_⟩, ⟨?_, ?_⟩⟩ <;>
    simp [Flake8Analyzer.analyze, PylintAnalyzer.analyze, RadonAnalyzer.analyze,
      flake8_analyzeLoop_notFound, pylint_analyzeLoop_notFound, radon_analyzeLoop_notFound]

theorem radon_processItems_spec (filename : String) (items : List RadonAnalyzer.RadonItem) :
    RadonAnalyzer.processItems filename items
      = ((items.filter RadonAnalyzer.flaggedItem).map (RadonAnalyzer.complexityIssue filename),
         (items.filter RadonAnalyzer.flaggedItem).length) := by
  induction items with
  | nil => rfl
  | cons item rest ih =>
    cases hc : item.complexity with
    | none =>
      simp [RadonAnalyzer.processItems, RadonAnalyzer.flaggedItem, List.filter_cons, hc, ih]
    | some c =>
      by_cases h5 : c > 5
      · simp [RadonAnalyzer.processItems, RadonAnalyzer.flaggedItem, List.filter_cons, hc, h5, ih]
      · simp [RadonAnalyzer.processItems, RadonAnalyzer.flaggedItem, List.filter_cons, hc, h5, ih]

theorem radon_analyzeLoop_flagged_count
    (o : ChangedFile → ToolOutcome (PyStdout RadonAnalyzer.RadonItem))
    (files : List ChangedFile) :
    (RadonAnalyzer.analyzeLoop o files).2
      = ((eligibleFiles files).map (fun f => RadonAnalyzer.outcomeFlaggedCount (o f))).sum := by
  induction files with
  | nil => rfl
  | cons f rest ih =>
    by_cases h : f.status = "added" ∨ f.status = "modified"
    · rw [eligibleFiles_cons_pos h]
      have hfile : (RadonAnalyzer.analyzeFile o f).2 = RadonAnalyzer.outcomeFlaggedCount (o f) := by
        cases ho : o f with
        | notFound => simp [RadonAnalyzer.analyzeFile, RadonAnalyzer.outcomeFlaggedCount, ho]
        | excOther m => simp [RadonAnalyzer.analyzeFile, RadonAnalyzer.outcomeFlaggedCount, ho]
        | ran stdout stderr =>
          cases stdout with
          | empty => simp [RadonAnalyzer.analyzeFile, RadonAnalyzer.outcomeFlaggedCount, ho]
          | parsed items =>
            simp [RadonAnalyzer.analyzeFile, RadonAnalyzer.outcomeFlaggedCount, ho,
              radon_processItems_spec]
          | malformed raw =>
            simp [RadonAnalyzer.analyzeFile, RadonAnalyzer.outcomeFlaggedCount, ho]
      simp only [RadonAnalyzer.analyzeLoop, if_pos h, List.map_cons, List.sum_cons, hfile, ih]
    · rw [eligibleFiles_cons_neg h]
      simp only [RadonAnalyzer.analyzeLoop, if_neg h, ih]

/-- C7: The radon adapter flags a code unit only when its complexity
score strictly exceeds the threshold 5 (a unit scoring exactly 5 is not
flagged); the issues produced from a parsed output are exactly one
`warning`-severity issue per flagged unit, carrying the unit name and
score in `details`, and the returned `complexity_issues` counter equals
the total number of flagged units across all eligible files. -/
theorem radon_strict_threshold_flagging :
    (∀ (filename : String) (items : List RadonAnalyzer.RadonItem),
      RadonAnalyzer.processItems filename items
        = ((items.filter RadonAnalyzer.flaggedItem).map (RadonAnalyzer.complexityIssue filename),
           (items.filter RadonAnalyzer.flaggedItem).length))
    ∧ (∀ nm loc lloc cc sl,
        RadonAnalyzer.flaggedItem ⟨some 5, nm, loc, lloc, cc, sl⟩ = false)
    ∧ (∀ nm loc lloc cc sl,
        RadonAnalyzer.flaggedItem ⟨some 6, nm, loc, lloc, cc, sl⟩ = true)
    ∧ (∀ (filename : String) (item : RadonAnalyzer.RadonItem),
        (RadonAnalyzer.complexityIssue filename item).severity = some "warning"
      ∧ (RadonAnalyzer.complexityIssue filename item).details
          = some { complexity := item.complexity.getD 0, name := item.name,
                   loc := item.loc, lloc := item.lloc, cc := item.cc })
    ∧ (∀ (o : ChangedFile → ToolOutcome (PyStdout RadonAnalyzer.RadonItem))
         (files : List ChangedFile),
        (RadonAnalyzer.analyze o files).complexity_issues
          = some (((eligibleFiles files).map
              (fun f => RadonAnalyzer.outcomeFlaggedCount (o f))).sum)) := by
  refine ⟨radon_processItems_spec, ?_, ?_, ?_, ?_⟩
  · intro nm loc lloc cc sl; rfl
  · intro nm loc lloc cc sl; rfl
  · intro filename item; exact ⟨rfl, rfl⟩
  · intro o files
    simp only [RadonAnalyzer.analyze, radon_analyzeLoop_flagged_count]

theorem summaryLoop_spec (results : List (String × ResultEntry))
    (s : FeedbackGenerator.Summary) :
    FeedbackGenerator.summaryLoop s results
      = { total_issues := s.total_issues + (results.map fun p => p.2.reportedTotal).sum
          critical := s.critical + (results.map fun p => p.2.reportedErrors).sum
          high := s.high + (results.map fun p => p.2.reportedWarnings).sum
          medium := s.medium + (results.map fun p => p.2.reportedInfos).sum
          low := s.low
          analyzers_used := s.analyzers_used } := by
  induction results generalizing s with
  | nil => simp [FeedbackGenerator.summaryLoop]
  | cons p rest ih =>
    obtain ⟨name, e⟩ := p
    cases e with
    | ok r =>
      simp only [FeedbackGenerator.summaryLoop, ih, List.map_cons, List.sum_cons,
        ResultEntry.reportedTotal, ResultEntry.reportedErrors, ResultEntry.reportedWarnings,
        ResultEntry.reportedInfos, FeedbackGenerator.Summary.mk.injEq]
      repeat' apply And.intro
      all_goals first | trivial | omega
    | err m =>
      simp only [FeedbackGenerator.summaryLoop, ih, List.map_cons, List.sum_cons,
        ResultEntry.reportedTotal, ResultEntry.reportedErrors, ResultEntry.reportedWarnings,
        ResultEntry.reportedInfos, FeedbackGenerator.Summary.mk.injEq]
      repeat' apply And.intro
      all_goals first | trivial | omega

/-- C2: For every map of analyzer results, the synthesized summary's
`total_issues` is the sum of the entries' reported `total_issues` fields
(error placeholders, which report none, contribute 0), its
`by_severity.critical`/`high`/`medium` are the sums of the entries' own
`errors`/`warnings`/`infos` counters (not recomputed from the bucketed
issue lists), `by_severity.low` is 0, and `analyzers_used` lists the name
of every entry, including error placeholders. -/
theorem summary_sums_adapter_counters :
    ∀ results : List (String × ResultEntry),
      (FeedbackGenerator.generate_summary results).total_issues
        = (results.map fun p => p.2.reportedTotal).sum
    ∧ (FeedbackGenerator.generate_summary results).critical
        = (results.map fun p => p.2.reportedErrors).sum
    ∧ (FeedbackGenerator.generate_summary results).high
        = (results.map fun p => p.2.reportedWarnings).sum
    ∧ (FeedbackGenerator.generate_summary results).medium
        = (results.map fun p => p.2.reportedInfos).sum
    ∧ (FeedbackGenerator.generate_summary results).low = 0
    ∧ (FeedbackGenerator.generate_summary results).analyzers_used = results.map Prod.fst
    ∧ (∀ p ∈ results, p.1 ∈ (FeedbackGenerator.generate_summary results).analyzers_used) := by
  intro results
  simp only [FeedbackGenerator.generate_summary, summaryLoop_spec, Nat.zero_add]
  refine ⟨by trivial, by trivial, by trivial, by trivial, by trivial, by trivial, ?_⟩
  intro p hp
  exact List.mem_map_of_mem Prod.fst hp

/-- Witness for C2 at a concrete results map containing an adapter result
with native counters and an error placeholder. -/
theorem summary_sums_adapter_counters_witness :
    ("pylint", ResultEntry.ok { total_issues := 3, errors := some 1, warnings := some 1, infos := some 1, issues := [] }) ∈ ([("pylint", ResultEntry.ok { total_issues := 3, errors := some 1, warnings := some 1, infos := some 1, issues := [] }), ("radon", ResultEntry.err "boom")] : List (String × ResultEntry))
    ∧ "pylint" ∈ (FeedbackGenerator.generate_summary [("pylint", ResultEntry.ok { total_issues := 3, errors := some 1, warnings := some 1, infos := some 1, issues := [] }), ("radon", ResultEntry.err "boom")]).analyzers_used := by
  refine ⟨by simp, ?_⟩
  exact (summary_sums_adapter_counters [("pylint", ResultEntry.ok { total_issues := 3, errors := some 1, warnings := some 1, infos := some 1, issues := [] }), ("radon", ResultEntry.err "boom")]).2.2.2.2.2.2 ("pylint", ResultEntry.ok { total_issues := 3, errors := some 1, warnings := some 1, infos := some 1, issues := [] }) (by simp)

theorem map_severity_cases (s : String) :
    FeedbackGenerator.map_severity s = "critical" ∨ FeedbackGenerator.map_severity s = "high"
      ∨ FeedbackGenerator.map_severity s = "medium" := by
  simp only [FeedbackGenerator.map_severity, FeedbackGenerator.severity_mapping_get]
  split
  · exact Or.inl rfl
  split
  · exact Or.inr (Or.inl rfl)
  split
  · exact Or.inr (Or.inr rfl)
  · exact Or.inr (Or.inr rfl)

theorem issueBucket_cases (i : Issue) :
    FeedbackGenerator.issueBucket i = "critical" ∨ FeedbackGenerator.issueBucket i = "high"
      ∨ FeedbackGenerator.issueBucket i = "medium" := by
  simpa [FeedbackGenerator.issueBucket] using map_severity_cases (i.severity.getD "info")

theorem buckets_add_size (b : FeedbackGenerator.Buckets) (s : String)
    (it : FeedbackGenerator.BucketItem)
    (h : s = "critical" ∨ s = "high" ∨ s = "medium" ∨ s = "low") :
    (b.add s it).size = b.size + 1 := by
  rcases h with h | h | h | h <;> subst h <;>
    simp [FeedbackGenerator.Buckets.add, FeedbackGenerator.Buckets.size] <;> omega

theorem buckets_add_low (b : FeedbackGenerator.Buckets) (s : String)
    (it : FeedbackGenerator.BucketItem)
    (h : s = "critical" ∨ s = "high" ∨ s = "medium") :
    (b.add s it).low = b.low := by
  rcases h with h | h | h <;> subst h <;> simp [FeedbackGenerator.Buckets.add]

theorem addIssues_size (a : String) (issues : List Issue) (b : FeedbackGenerator.Buckets) :
    (FeedbackGenerator.addIssues a b issues).size = b.size + issues.length := by
  induction issues generalizing b with
  | nil => simp [FeedbackGenerator.addIssues]
  | cons i rest ih =>
    have hb := buckets_add_size b (FeedbackGenerator.issueBucket i)
      (FeedbackGenerator.issueToBucketItem a i)
      (by rcases issueBucket_cases i with h | h | h
          exacts [Or.inl h, Or.inr (Or.inl h), Or.inr (Or.inr (Or.inl h))])
    simp only [FeedbackGenerator.addIssues, ih, hb, List.length_cons]
    omega

theorem addIssues_low (a : String) (issues : List Issue) (b : FeedbackGenerator.Buckets) :
    (FeedbackGenerator.addIssues a b issues).low = b.low := by
  induction issues generalizing b with
  | nil => simp [FeedbackGenerator.addIssues]
  | cons i rest ih =>
    rw [FeedbackGenerator.addIssues, ih, buckets_add_low _ _ _ (issueBucket_cases i)]

theorem categorizeIssues_size (results : List (String × ResultEntry))
    (b : FeedbackGenerator.Buckets) :
    (FeedbackGenerator.categorizeIssues b results).size
      = b.size + (results.map fun p => p.2.issueCount).sum := by
  induction results generalizing b with
  | nil => simp [FeedbackGenerator.categorizeIssues]
  | cons p rest ih =>
    obtain ⟨n, e⟩ := p
    cases e with
    | ok r =>
      by_cases he : r.issues.isEmpty
      · have hlen : r.issues.length = 0 := by
          simpa [List.isEmpty_iff_length_eq_zero] using he
        simp only [FeedbackGenerator.categorizeIssues, if_pos he, ih, List.map_cons,
          List.sum_cons, ResultEntry.issueCount, hlen]
        omega
      · simp only [FeedbackGenerator.categorizeIssues, if_neg he, ih, addIssues_size,
          List.map_cons, List.sum_cons, ResultEntry.issueCount]
        omega
    | err m =>
      simp [FeedbackGenerator.categorizeIssues, ih, ResultEntry.issueCount]

theorem categorizeIssues_low (results : List (String × ResultEntry))
    (b : FeedbackGenerator.Buckets) :
    (FeedbackGenerator.categorizeIssues b results).low = b.low := by
  induction results generalizing b with
  | nil => simp [FeedbackGenerator.categorizeIssues]
  | cons p rest ih =>
    obtain ⟨n, e⟩ := p
    cases e with
    | ok r =>
      by_cases he : r.issues.isEmpty
      · simp only [FeedbackGenerator.categorizeIssues, if_pos he, ih]
      · simp only [FeedbackGenerator.categorizeIssues, if_neg he, ih, addIssues_low]
    | err m =>
      simp [FeedbackGenerator.categorizeIssues, ih]

/-- C5: Severity normalization maps `error` to the critical bucket,
`warning` to high and `info` to medium, case-insensitively; any other or
missing severity string maps to medium; every issue of every entry is
appended to exactly one of the four buckets (the bucket sizes sum to the
number of processed issues); and the low bucket is never populated. -/
theorem severity_normalization_buckets :
    FeedbackGenerator.map_severity "error" = "critical"
    ∧ FeedbackGenerator.map_severity "warning" = "high"
    ∧ FeedbackGenerator.map_severity "info" = "medium"
    ∧ (∀ s : String, pyLower s = "error" → FeedbackGenerator.map_severity s = "critical")
    ∧ (∀ s : String, pyLower s = "warning" → FeedbackGenerator.map_severity s = "high")
    ∧ (∀ s : String, pyLower s = "info" → FeedbackGenerator.map_severity s = "medium")
    ∧ (∀ s : String, pyLower s ≠ "error" → pyLower s ≠ "warning" → pyLower s ≠ "info" →
        FeedbackGenerator.map_severity s = "medium")
    ∧ (∀ file line column code message details,
        FeedbackGenerator.issueBucket ⟨file, line, column, code, message, none, details⟩
          = "medium")
    ∧ (∀ results : List (String × ResultEntry),
        (FeedbackGenerator.generate_feedback results).issues.size
          = (results.map fun p => p.2.issueCount).sum)
    ∧ (∀ results : List (String × ResultEntry),
        (FeedbackGenerator.generate_feedback results).issues.low = []) := by
  refine ⟨by decide, by decide, by decide, ?_, ?_, ?_, ?_, ?_, ?_, ?_⟩
  · intro s h
    simp [FeedbackGenerator.map_severity, FeedbackGenerator.severity_mapping_get, h]
  · intro s h
    simp [FeedbackGenerator.map_severity, FeedbackGenerator.severity_mapping_get, h]
  · intro s h
    simp [FeedbackGenerator.map_severity, FeedbackGenerator.severity_mapping_get, h]
  · intro s h1 h2 h3
    simp [FeedbackGenerator.map_severity, FeedbackGenerator.severity_mapping_get, h1, h2, h3]
  · intro file line column code message details
    simp [FeedbackGenerator.issueBucket]
    decide
  · intro results
    simpa [FeedbackGenerator.generate_feedback, FeedbackGenerator.Buckets.size]
      using categorizeIssues_size results {}
  · intro results
    simpa [FeedbackGenerator.generate_feedback]
      using categorizeIssues_low results {}

/-- Witness for C5 at concrete severities, including uppercase and
unknown inputs, and a concrete results map. -/
theorem severity_normalization_buckets_witness :
    pyLower "ERROR" = "error"
    ∧ FeedbackGenerator.map_severity "ERROR" = "critical"
    ∧ FeedbackGenerator.map_severity "Warning" = "high"
    ∧ FeedbackGenerator.map_severity "refactor" = "medium" := by
  refine ⟨by decide, ?_, ?_, ?_⟩
  · exact severity_normalization_buckets.2.2.2.1 "ERROR" (by decide)
  · exact severity_normalization_buckets.2.2.2.2.1 "Warning" (by decide)
  · exact severity_normalization_buckets.2.2.2.2.2.2.1 "refactor" (by decide) (by decide) (by decide)

theorem dedupFirst_sublist (l : List String) :
    List.Sublist (FeedbackGenerator.dedupFirst l) l := by
  induction l using FeedbackGenerator.dedupFirst.induct with
  | case1 => rw [FeedbackGenerator.dedupFirst]
  | case2 x xs ih =>
    rw [FeedbackGenerator.dedupFirst]
    exact (ih.trans (List.filter_sublist xs)).cons₂ x

theorem mem_dedupFirst (a : String) (l : List String) :
    a ∈ FeedbackGenerator.dedupFirst l ↔ a ∈ l := by
  induction l using FeedbackGenerator.dedupFirst.induct with
  | case1 => simp [FeedbackGenerator.dedupFirst]
  | case2 x xs ih =>
    rw [FeedbackGenerator.dedupFirst]
    by_cases hax : a = x
    · simp [hax]
    · simp [List.mem_cons, hax, ih, List.mem_filter, bne_iff_ne]

theorem dedupFirst_nodup (l : List String) : (FeedbackGenerator.dedupFirst l).Nodup := by
  induction l using FeedbackGenerator.dedupFirst.induct with
  | case1 => simp [FeedbackGenerator.dedupFirst]
  | case2 x xs ih =>
    rw [FeedbackGenerator.dedupFirst]
    refine List.nodup_cons.mpr ⟨?_, ih⟩
    intro hx
    have := (mem_dedupFirst x _).mp hx
    simp [List.mem_filter] at this

theorem security_rec_mem_build (results : List (String × ResultEntry))
    (buckets : FeedbackGenerator.Buckets)
    (h : FeedbackGenerator.has_security_issues results = true) :
    "Review security implications of code changes"
      ∈ FeedbackGenerator.buildRecommendations results buckets := by
  simp [FeedbackGenerator.buildRecommendations, h]

/-- C6: The synthesized recommendation list never contains duplicate
strings and is an order-preserving (first-occurrence) selection from the
fixed-priority build sequence (two fixed advisories, then the
critical/high/medium count strings, then the security, performance,
refactor and documentation triggers); when any issue message matches a
security keyword, the security-review recommendation appears exactly
once, however many issues match. -/
theorem recommendations_dedup_order :
    ∀ (results : List (String × ResultEntry)) (buckets : FeedbackGenerator.Buckets),
      (FeedbackGenerator.generate_recommendations results buckets).Nodup
    ∧ List.Sublist (FeedbackGenerator.generate_recommendations results buckets)
        (FeedbackGenerator.buildRecommendations results buckets)
    ∧ (FeedbackGenerator.has_security_issues results = true →
        (FeedbackGenerator.generate_recommendations results buckets).count
          "Review security implications of code changes" = 1) := by
  intro results buckets
  refine ⟨dedupFirst_nodup _, dedupFirst_sublist _, fun h => ?_⟩
  exact List.count_eq_one_of_mem (dedupFirst_nodup _)
    ((mem_dedupFirst _ _).mpr (security_rec_mem_build results buckets h))

/-- Witness for C6: a results map with ten issues whose messages contain
"SQL injection risk" triggers the security recommendation exactly once. -/
theorem recommendations_dedup_order_witness :
    FeedbackGenerator.has_security_issues [("flake8", ResultEntry.ok { total_issues := 10, errors := some 0, warnings := some 10, issues := List.replicate 10 { file := some "app.py", line := some 3, column := some 5, code := some "W605", message := some "SQL injection risk", severity := some "warning" } })] = true
    ∧ (FeedbackGenerator.generate_recommendations [("flake8", ResultEntry.ok { total_issues := 10, errors := some 0, warnings := some 10, issues := List.replicate 10 { file := some "app.py", line := some 3, column := some 5, code := some "W605", message := some "SQL injection risk", severity := some "warning" } })] {}).count "Review security implications of code changes" = 1 := by
  refine ⟨by decide, ?_⟩
  exact (recommendations_dedup_order [("flake8", ResultEntry.ok { total_issues := 10, errors := some 0, warnings := some 10, issues := List.replicate 10 { file := some "app.py", line := some 3, column := some 5, code := some "W605", message := some "SQL injection risk", severity := some "warning" } })] {}).2.2 (by decide)

theorem categorizeIssues_err_middle (pre post : List (String × ResultEntry))
    (n m : String) (b : FeedbackGenerator.Buckets) :
    FeedbackGenerator.categorizeIssues b (pre ++ (n, ResultEntry.err m) :: post)
      = FeedbackGenerator.categorizeIssues b (pre ++ post) := by
  induction pre generalizing b with
  | nil => simp [FeedbackGenerator.categorizeIssues]
  | cons p rest ih =>
    obtain ⟨q, e⟩ := p
    cases e with
    | ok r =>
      simp only [List.cons_append, FeedbackGenerator.categorizeIssues]
      exact ih _
    | err mm =>
      simp only [List.cons_append, FeedbackGenerator.categorizeIssues]
      exact ih _

theorem any_entryHasKeyword_err_middle (kws : List String)
    (pre post : List (String × ResultEntry)) (n m : String) :
    ((pre ++ (n, ResultEntry.err m) :: post).any fun p =>
        FeedbackGenerator.entryHasKeyword kws p.2)
      = ((pre ++ post).any fun p => FeedbackGenerator.entryHasKeyword kws p.2) := by
  simp [List.any_append, List.any_cons, FeedbackGenerator.entryHasKeyword]

theorem buildRecommendations_err_middle (pre post : List (String × ResultEntry))
    (n m : String) (buckets : FeedbackGenerator.Buckets) :
    FeedbackGenerator.buildRecommendations (pre ++ (n, ResultEntry.err m) :: post) buckets
      = FeedbackGenerator.buildRecommendations (pre ++ post) buckets := by
  simp only [FeedbackGenerator.buildRecommendations, FeedbackGenerator.has_security_issues,
    FeedbackGenerator.has_performance_issues, FeedbackGenerator.has_documentation_issues,
    any_entryHasKeyword_err_middle]

/-- C10: An adapter that raises still yields a result entry (the
`{"error": msg}` placeholder, which carries neither an `issues` nor a
`total_issues` field), and `generate_feedback` processes such an entry
without effect: the buckets, recommendations and summary counters are
those of the same map without the placeholder, while the adapter's name
still appears in `analyzers_used`. -/
theorem error_placeholder_nonfatal :
    ∀ (pre post : List (String × ResultEntry)) (n m : String),
      (FeedbackGenerator.generate_feedback (pre ++ (n, ResultEntry.err m) :: post)).issues
        = (FeedbackGenerator.generate_feedback (pre ++ post)).issues
    ∧ (FeedbackGenerator.generate_feedback (pre ++ (n, ResultEntry.err m) :: post)).recommendations
        = (FeedbackGenerator.generate_feedback (pre ++ post)).recommendations
    ∧ (FeedbackGenerator.generate_feedback (pre ++ (n, ResultEntry.err m) :: post)).summary.total_issues
        = (FeedbackGenerator.generate_feedback (pre ++ post)).summary.total_issues
    ∧ (FeedbackGenerator.generate_feedback (pre ++ (n, ResultEntry.err m) :: post)).summary.critical
        = (FeedbackGenerator.generate_feedback (pre ++ post)).summary.critical
    ∧ (FeedbackGenerator.generate_feedback (pre ++ (n, ResultEntry.err m) :: post)).summary.high
        = (FeedbackGenerator.generate_feedback (pre ++ post)).summary.high
    ∧ (FeedbackGenerator.generate_feedback (pre ++ (n, ResultEntry.err m) :: post)).summary.medium
        = (FeedbackGenerator.generate_feedback (pre ++ post)).summary.medium
    ∧ (FeedbackGenerator.generate_feedback (pre ++ (n, ResultEntry.err m) :: post)).summary.low
        = (FeedbackGenerator.generate_feedback (pre ++ post)).summary.low
    ∧ n ∈ (FeedbackGenerator.generate_feedback
          (pre ++ (n, ResultEntry.err m) :: post)).summary.analyzers_used
    ∧ (∀ (name msg : String),
        PRReviewAgent.record_analysis_results [(name, Except.error msg)]
          = [(name, ResultEntry.err msg)])
    ∧ (∀ adapters : List (String × Except String AnalysisResult),
        (PRReviewAgent.record_analysis_results adapters).map Prod.fst
          = adapters.map Prod.fst) := by
  intro pre post n m
  refine ⟨?_, ?_, ?_, ?_, ?_, ?_, ?_, ?_, fun name msg => rfl, fun adapters => ?_⟩
  · simp only [FeedbackGenerator.generate_feedback, categorizeIssues_err_middle]
  · simp only [FeedbackGenerator.generate_feedback, FeedbackGenerator.generate_recommendations,
      categorizeIssues_err_middle, buildRecommendations_err_middle]
  · simp only [FeedbackGenerator.generate_feedback, FeedbackGenerator.generate_summary,
      summaryLoop_spec, List.map_append, List.map_cons, List.sum_append, List.sum_cons,
      ResultEntry.reportedTotal]
    omega
  · simp only [FeedbackGenerator.generate_feedback, FeedbackGenerator.generate_summary,
      summaryLoop_spec, List.map_append, List.map_cons, List.sum_append, List.sum_cons,
      ResultEntry.reportedErrors]
    omega
  · simp only [FeedbackGenerator.generate_feedback, FeedbackGenerator.generate_summary,
      summaryLoop_spec, List.map_append, List.map_cons, List.sum_append, List.sum_cons,
      ResultEntry.reportedWarnings]
    omega
  · simp only [FeedbackGenerator.generate_feedback, FeedbackGenerator.generate_summary,
      summaryLoop_spec, List.map_append, List.map_cons, List.sum_append, List.sum_cons,
      ResultEntry.reportedInfos]
    omega
  · simp only [FeedbackGenerator.generate_feedback, FeedbackGenerator.generate_summary,
      summaryLoop_spec]
  · simp [FeedbackGenerator.generate_feedback, FeedbackGenerator.generate_summary,
      summaryLoop_spec]
  · simp [PRReviewAgent.record_analysis_results]

theorem flake8_analyzeLoop_clean (files : List ChangedFile) :
    Flake8Analyzer.analyzeLoop (fun _ => ToolOutcome.ran "" "") files = ([], 0, 0) := by
  induction files with
  | nil => rfl
  | cons f rest ih =>
    by_cases h : f.status = "added" ∨ f.status = "modified"
    · simp only [Flake8Analyzer.analyzeLoop, if_pos h, ih]
      rfl
    · simp only [Flake8Analyzer.analyzeLoop, if_neg h, ih]

theorem pylint_analyzeLoop_clean (files : List ChangedFile) :
    PylintAnalyzer.analyzeLoop (fun _ => ToolOutcome.ran PyStdout.empty "") files = {} := by
  induction files with
  | nil => rfl
  | cons f rest ih =>
    by_cases h : f.status = "added" ∨ f.status = "modified"
    · simp only [PylintAnalyzer.analyzeLoop, if_pos h, ih]
      rfl
    · simp only [PylintAnalyzer.analyzeLoop, if_neg h, ih]

theorem radon_analyzeLoop_clean (files : List ChangedFile) :
    RadonAnalyzer.analyzeLoop (fun _ => ToolOutcome.ran PyStdout.empty "") files = ([], 0) := by
  induction files with
  | nil => rfl
  | cons f rest ih =>
    by_cases h : f.status = "added" ∨ f.status = "modified"
    · simp only [RadonAnalyzer.analyzeLoop, if_pos h, ih]
      rfl
    · simp only [RadonAnalyzer.analyzeLoop, if_neg h, ih]

theorem cleanRunResults_eq (files : List ChangedFile) :
    cleanRunResults files
      = [("flake8", ResultEntry.ok { total_issues := 0, errors := some 0, warnings := some 0, issues := [] }),
         ("pylint", ResultEntry.ok { total_issues := 0, errors := some 0, warnings := some 0, infos := some 0, issues := [] }),
         ("radon", ResultEntry.ok { total_issues := 0, complexity_issues := some 0, issues := [] })] := by
  simp only [cleanRunResults, Flake8Analyzer.analyze, PylintAnalyzer.analyze,
    RadonAnalyzer.analyze, flake8_analyzeLoop_clean, pylint_analyzeLoop_clean,
    radon_analyzeLoop_clean]
  rfl

theorem dedupFirst_pair (a b : String) (h : (b != a) = true) :
    FeedbackGenerator.dedupFirst [a, b] = [a, b] := by
  rw [FeedbackGenerator.dedupFirst]
  rw [show ([b].filter fun y => y != a) = [b] by simp [List.filter_cons, h]]
  rw [FeedbackGenerator.dedupFirst]
  rw [show (([] : List String).filter fun y => y != b) = [] by simp]
  rw [FeedbackGenerator.dedupFirst]

theorem generate_feedback_recommendations (results : List (String × ResultEntry)) :
    (FeedbackGenerator.generate_feedback results).recommendations
      = FeedbackGenerator.dedupFirst (FeedbackGenerator.buildRecommendations results
          (FeedbackGenerator.categorizeIssues {} results)) := rfl

/-- C9: When all three adapters run cleanly over a non-empty ChangedFile
sequence (each invocation completes with no findings and no stderr), the
synthesized report has `total_issues = 0`, all four severity buckets
empty, and a recommendation list consisting of exactly the two fixed
advisory strings. -/
theorem clean_run_perfect_report :
    ∀ files : List ChangedFile, files ≠ [] →
      (FeedbackGenerator.generate_feedback (cleanRunResults files)).summary.total_issues = 0
    ∧ (FeedbackGenerator.generate_feedback (cleanRunResults files)).issues = {}
    ∧ (FeedbackGenerator.generate_feedback (cleanRunResults files)).recommendations
        = ["Ensure all code follows the project\x27s style guidelines",
           "Review all identified issues before merging"] := by
  intro files _
  rw [cleanRunResults_eq]
  refine ⟨by decide, by decide, ?_⟩
  rw [generate_feedback_recommendations]
  rw [show FeedbackGenerator.buildRecommendations
        [("flake8", ResultEntry.ok { total_issues := 0, errors := some 0, warnings := some 0, issues := [] }),
         ("pylint", ResultEntry.ok { total_issues := 0, errors := some 0, warnings := some 0, infos := some 0, issues := [] }),
         ("radon", ResultEntry.ok { total_issues := 0, complexity_issues := some 0, issues := [] })]
        (FeedbackGenerator.categorizeIssues {}
          [("flake8", ResultEntry.ok { total_issues := 0, errors := some 0, warnings := some 0, issues := [] }),
           ("pylint", ResultEntry.ok { total_issues := 0, errors := some 0, warnings := some 0, infos := some 0, issues := [] }),
           ("radon", ResultEntry.ok { total_issues := 0, complexity_issues := some 0, issues := [] })])
      = ["Ensure all code follows the project\x27s style guidelines",
         "Review all identified issues before merging"] by decide]
  exact dedupFirst_pair _ _ (by decide)

/-- Witness for C9 at a concrete one-element ChangedFile sequence. -/
theorem clean_run_perfect_report_witness :
    ([({ filename := "app.py", status := "modified" } : ChangedFile)] ≠ ([] : List ChangedFile))
    ∧ (FeedbackGenerator.generate_feedback
          (cleanRunResults [{ filename := "app.py", status := "modified" }])).summary.total_issues = 0
    ∧ (FeedbackGenerator.generate_feedback
          (cleanRunResults [{ filename := "app.py", status := "modified" }])).recommendations
        = ["Ensure all code follows the project\x27s style guidelines",
           "Review all identified issues before merging"] := by
  have h := clean_run_perfect_report [{ filename := "app.py", status := "modified" }]
    (by simp)
  exact ⟨by simp, h.1, h.2.2⟩
